import Mathlib

/-!
Shallow embedding of the SDL2 sound engine (`src/common/SoundSDL2.cxx`):
the overlay (WAV) playback path, the primary-device volume/mute controls,
the resampler pull callback and the hardware callback. Machine integers
(`uInt32`) are modelled as `ℕ` (the source never relies on wrap-around in
the modelled paths: subtractions are guarded by the checks shown), floats
as `ℚ`, pointers into the WAV buffer as byte offsets from the buffer start,
and SDL devices as abstract handles. The `RESAMPLE_WAV` conditional paths
are not compiled in this configuration and are not modelled.
-/

namespace SoundSDL2

/-- Overlay (WAV) playback state: the class-level statics of `SoundSDL2`
plus the per-instance WAV members. `wavBuffer` is `myWavBuffer` (`none` is
the null pointer), `wavLength` is `myWavLength` (total loaded length set by
`SDL_LoadWAV`), `wavPosOff` is `myWavPos` expressed as a byte offset from
the buffer start, `wavLen` is `myWavLen` (remaining length), `wavDevice`
tells whether `myWavDevice` is a live handle. -/
structure WavState where
  wavFilename : String
  wavBuffer : Option (List ℕ)
  wavLength : ℕ
  wavPosOff : ℕ
  wavLen : ℕ
  wavDevice : Bool
  deriving Repr, DecidableEq

/-- `SoundSDL2::playWav(fileName, position, length)`. The environment is
abstracted by `loadWav` (what `SDL_LoadWAV` would yield for a file name:
`none` on a missing/corrupt file) and `openDev` (whether
`SDL_OpenAudioDevice` on the overlay stream succeeds). Returns the C++
return value paired with the post state. -/
def playWav (loadWav : String → Option (List ℕ)) (openDev : Bool)
    (s : WavState) (fileName : String) (position length : ℕ) :
    Bool × WavState :=
  let loaded : Option WavState :=
    if fileName ≠ s.wavFilename ∨ s.wavBuffer = none then
      match loadWav fileName with
      | none => none
      | some buf =>
          some { s with wavBuffer := some buf, wavLength := buf.length }
    else
      some s
  match loaded with
  | none => (false, { s with wavBuffer := none })
  | some s2 =>
    if position > s2.wavLength then
      (false, s2)
    else
      let s3 : WavState :=
        { s2 with
          wavFilename := fileName
          wavLen := if length ≠ 0 then min length (s2.wavLength - position)
                    else s2.wavLength
          wavPosOff := position }
      if s3.wavDevice then (true, s3)
      else if openDev then (true, { s3 with wavDevice := true })
      else (false, s3)

/-- `SoundSDL2::wavCallback` (state part, `RESAMPLE_WAV` off): if remaining
length is non-zero, clamp the cycle's byte count to the remaining length,
mix, then advance the cursor and decrement the remaining length by the
clamped count. -/
def wavCallback (s : WavState) (len : ℕ) : WavState :=
  if s.wavLen ≠ 0 then
    let len2 := if len > s.wavLen then s.wavLen else len
    { s with wavPosOff := s.wavPosOff + len2, wavLen := s.wavLen - len2 }
  else s

/-- `SoundSDL2::stopWav`: when a buffer is resident, zero the remaining
length, close the overlay device and free the buffer. -/
def stopWav (s : WavState) : WavState :=
  if s.wavBuffer.isSome then
    { s with wavLen := 0, wavDevice := false, wavBuffer := none }
  else s

/-- `SoundSDL2::wavSize`: `myWavBuffer ? myWavLen : 0`. -/
def wavSize (s : WavState) : ℕ :=
  if s.wavBuffer.isSome then s.wavLen else 0

/-- The spec's overlay bounds invariant: playback cursor plus remaining
length never exceeds the loaded buffer's bounds (buffer start is offset 0,
so: cursor offset + remaining ≤ total loaded length). -/
def wavInvariant (s : WavState) : Prop :=
  s.wavPosOff + s.wavLen ≤ s.wavLength

/-- Empty overlay state (no buffer ever loaded). -/
def wavInit : WavState :=
  { wavFilename := ""
    wavBuffer := none
    wavLength := 0
    wavPosOff := 0
    wavLen := 0
    wavDevice := false }

/-- A load oracle that yields a 200-byte buffer for every file name. -/
def load200 : String → Option (List ℕ) :=
  fun _ => some (List.replicate 200 0)

/-- Overlay state with a 200-byte buffer resident under `"a.wav"` and the
overlay device open. -/
def wavResident : WavState :=
  { wavFilename := "a.wav"
    wavBuffer := some (List.replicate 200 0)
    wavLength := 200
    wavPosOff := 0
    wavLen := 200
    wavDevice := true }

/-- Primary-path volume state: `myIsInitializedFlag`, the persisted
`AudioSettings` volume and enabled flag, `myVolume`, `myVolumeFactor`
and the overlay `myWavVolumeFactor`. -/
structure SoundState where
  isInitialized : Bool
  settingsVolume : ℕ
  settingsEnabled : Bool
  volume : ℕ
  volumeFactor : ℚ
  wavVolumeFactor : ℚ
  deriving DecidableEq

/-- `SoundSDL2::setVolume(percent)`: only when initialized and
`percent ≤ 100`, persist the percentage, store it in `myVolume`, set
`myVolumeFactor = percent / 100` and set the overlay factor to the same
value when audio is enabled (0 otherwise). -/
def setVolume (s : SoundState) (percent : ℕ) : SoundState :=
  if s.isInitialized = true ∧ percent ≤ 100 then
    { s with
      settingsVolume := percent
      volume := percent
      volumeFactor := (percent : ℚ) / 100
      wavVolumeFactor := if s.settingsEnabled then (percent : ℚ) / 100 else 0 }
  else s

/-- An uninitialized engine whose stored volume is 30. -/
def soundUninit : SoundState :=
  { isInitialized := false
    settingsVolume := 30
    settingsEnabled := true
    volume := 30
    volumeFactor := (30 : ℚ) / 100
    wavVolumeFactor := (30 : ℚ) / 100 }

/-- An initialized engine with audio enabled. -/
def soundReady : SoundState :=
  { isInitialized := true
    settingsVolume := 100
    settingsEnabled := true
    volume := 100
    volumeFactor := 1
    wavVolumeFactor := 1 }

/-- State captured by the resampler's pull callback: the bound fragment
queue (abstract type `Q`), `myUnderrun` and `myCurrentFragment`. -/
structure PullState (Q F : Type) where
  queue : Q
  underrun : Bool
  currentFragment : Option F

/-- The `nextFragmentCallback` lambda built in `SoundSDL2::initResampler`.
The queue is abstract: `dequeue` is `AudioQueue::dequeue` (taking the
fragment to recycle, yielding the dequeued fragment or `none` and the new
queue state) and `qsize` is `AudioQueue::size`. While in underrun, a
dequeue is attempted only once the queue holds at least
`prebufferFragmentCount` fragments; then `myUnderrun` is set to whether the
pull yielded nothing, and `myCurrentFragment` is updated on success. -/
def nextFragmentCallback {Q F : Type}
    (dequeue : Q → Option F → Option F × Q) (qsize : Q → ℕ)
    (prebufferFragmentCount : ℕ) (s : PullState Q F) :
    Option F × PullState Q F :=
  let r : Option F × Q :=
    if s.underrun then
      if qsize s.queue ≥ prebufferFragmentCount then
        dequeue s.queue s.currentFragment
      else (none, s.queue)
    else dequeue s.queue s.currentFragment
  (r.1,
   { queue := r.2
     underrun := r.1.isNone
     currentFragment := if r.1.isSome then r.1 else s.currentFragment })

/-- A concrete list-backed queue for evaluating the pull callback:
dequeue pops the head (recycling is a no-op for a value queue). -/
def dequeueList (q : List ℕ) (_recycle : Option ℕ) : Option ℕ × List ℕ :=
  match q with
  | [] => (none, [])
  | f :: rest => (some f, rest)

/-- `SoundSDL2::processFragment(stream, length)`: ask the resampler to fill
`length` samples, then multiply every sample once by `myVolumeFactor`.
`fillFragment` abstracts `Resampler::fillFragment`, giving the samples it
writes for a requested count. -/
def processFragment (fillFragment : ℕ → List ℚ) (volumeFactor : ℚ)
    (length : ℕ) : List ℚ :=
  (fillFragment length).map (fun sample => sample * volumeFactor)

/-- What the primary device callback writes into the SDL stream: either a
`memset` of the whole byte buffer to zero, or `len >> 2` float samples. -/
inductive CallbackOutput where
  | zeroFill (lenBytes : ℕ)
  | samples (data : List ℚ)
  deriving DecidableEq

/-- `SoundSDL2::callback(udata, stream, len)`: if an audio queue is bound,
delegate to `processFragment` for `len >> 2` samples, else zero the whole
`len`-byte buffer. -/
def callback (audioQueueBound : Bool) (fillFragment : ℕ → List ℚ)
    (volumeFactor : ℚ) (len : ℕ) : CallbackOutput :=
  if audioQueueBound then
    CallbackOutput.samples (processFragment fillFragment volumeFactor (len >>> 2))
  else
    CallbackOutput.zeroFill len

/-- Device-related state touched by `open`/`openDevice`: the negotiated
hardware spec (`myHardwareSpec.freq` and `.samples`), `myDeviceId`, the
device handle `myDevice` (0 is SDL's invalid handle) and
`myIsInitializedFlag`. -/
structure DeviceState where
  hardwareFreq : ℕ
  hardwareSamples : ℕ
  deviceId : ℕ
  deviceHandle : ℕ
  isInitialized : Bool
  deriving Repr, DecidableEq

/-- The `AudioSettings` fields read by `open`/`openDevice`. -/
structure AudioSettingsS where
  sampleRate : ℕ
  fragmentSize : ℕ
  device : ℕ
  deriving Repr, DecidableEq

/-- `SoundSDL2::openDevice`: closes any current device, clamps the
configured device index against the enumerated device list, and calls
`SDL_OpenAudioDevice`; the environment outcome is `openResult` (`none` on
failure, else the new handle and the negotiated frequency and fragment
size). On failure the handle is 0 and the previously negotiated spec is
left as is; `myIsInitializedFlag` records the outcome. -/
def openDevice (settings : AudioSettingsS) (numDevices : ℕ)
    (openResult : Option (ℕ × ℕ × ℕ)) (s : DeviceState) : DeviceState :=
  let clampedId := min settings.device (numDevices - 1)
  match openResult with
  | none =>
      { s with deviceId := clampedId, deviceHandle := 0, isInitialized := false }
  | some (handle, freq, samples) =>
      { s with
        deviceId := clampedId
        deviceHandle := handle
        hardwareFreq := freq
        hardwareSamples := samples
        isInitialized := true }

/-- The device (re)open decision at the top of `SoundSDL2::open`: the
device is closed and reopened only when the requested sample rate or
fragment size differs from the negotiated hardware spec, or the configured
device identifier differs from the bound one. -/
def openDevicePhase (settings : AudioSettingsS) (numDevices : ℕ)
    (openResult : Option (ℕ × ℕ × ℕ)) (s : DeviceState) : DeviceState :=
  if settings.sampleRate ≠ s.hardwareFreq ∨
     settings.fragmentSize ≠ s.hardwareSamples ∨
     settings.device ≠ s.deviceId then
    openDevice settings numDevices openResult s
  else s

/-- Mute-related state: the SDL pause status of the primary device
(`SDL_GetAudioDeviceStatus(myDevice) == SDL_AUDIO_PAUSED`), the overlay
device and its pause status, the persisted enabled flag, `myMuteState`,
and the two volume factors `setEnabled` writes. -/
structure MuteState where
  isInitialized : Bool
  devicePaused : Bool
  wavDeviceOpen : Bool
  wavDevicePaused : Bool
  settingsEnabled : Bool
  muteState : Bool
  volumeFactor : ℚ
  wavVolumeFactor : ℚ
  deriving DecidableEq

/-- `SoundSDL2::mute(state)`: read the current paused status, pause or
resume the primary device (when initialized) and the overlay device (when
open), and return the status read before the change. -/
def mute (s : MuteState) (state : Bool) : Bool × MuteState :=
  let oldstate := s.devicePaused
  let s1 := if s.isInitialized then { s with devicePaused := state } else s
  let s2 := if s1.wavDeviceOpen then { s1 with wavDevicePaused := state } else s1
  (oldstate, s2)

/-- `SoundSDL2::setEnabled(enable)` (state part): persist the enabled
flag, set `myMuteState = !enable` and derive the overlay volume factor. -/
def setEnabled (s : MuteState) (enable : Bool) : MuteState :=
  { s with
    settingsEnabled := enable
    muteState := !enable
    wavVolumeFactor := if !enable then 0 else s.volumeFactor }

/-- `SoundSDL2::toggleMute`: flip the persisted enabled flag via
`setEnabled`, set `myMuteState` to its negation, apply `mute`, resume the
overlay device if open, and return the new enabled state. -/
def toggleMute (s : MuteState) : Bool × MuteState :=
  let enabled := !s.settingsEnabled
  let s1 := setEnabled s enabled
  let s2 : MuteState := { s1 with muteState := !enabled }
  let s3 := (mute s2 (!enabled)).2
  let s4 := if s3.wavDeviceOpen then { s3 with wavDevicePaused := false } else s3
  (enabled, s4)

/-- A concrete fill function: `k` samples, all equal to 1. -/
def fillOnes : ℕ → List ℚ :=
  fun k => List.replicate k 1

/-- A pull state in underrun with two fragments queued and nothing checked
out. -/
def pullUnderrun : PullState (List ℕ) ℕ :=
  { queue := [7, 8], underrun := true, currentFragment := none }

/-- A running (non-underrun) pull state with one fragment queued. -/
def pullRunning : PullState (List ℕ) ℕ :=
  { queue := [5], underrun := false, currentFragment := some 9 }

/-- Settings that agree with the negotiated hardware spec and bound device
of `devMatching`. -/
def settingsMatching : AudioSettingsS :=
  { sampleRate := 44100, fragmentSize := 1024, device := 0 }

/-- A device state negotiated at 44100 Hz / 1024-sample fragments on
device 0, handle 3. -/
def devMatching : DeviceState :=
  { hardwareFreq := 44100
    hardwareSamples := 1024
    deviceId := 0
    deviceHandle := 3
    isInitialized := true }

/-- Settings requesting a different sample rate than `devMatching`. -/
def settingsChanged : AudioSettingsS :=
  { sampleRate := 48000, fragmentSize := 1024, device := 0 }

/-- A mute state with the primary device live and playing, the overlay
device open, and audio enabled. -/
def muteLive : MuteState :=
  { isInitialized := true
    devicePaused := false
    wavDeviceOpen := true
    wavDevicePaused := false
    settingsEnabled := true
    muteState := false
    volumeFactor := 1
    wavVolumeFactor := 1 }

set_option maxRecDepth 8192 in
/-- C1: the claim says that a zero requested length plays from the start
offset to the end of the buffer, leaving exactly `T - p` samples to play.
Evaluating `playWav` at the failing input — a 200-byte buffer, start
offset 100, requested length 0 — the call succeeds but sets the remaining
length to the full 200 bytes (`myWavLen = myWavLength`), not the 100
bytes from the offset to the end, so playback continues past the end of
the loaded buffer. -/
theorem playWav_zeroLength_overruns :
    (playWav load200 true wavInit "snd.wav" 100 0).1 = true ∧
    (playWav load200 true wavInit "snd.wav" 100 0).2.wavLength = 200 ∧
    (playWav load200 true wavInit "snd.wav" 100 0).2.wavPosOff = 100 ∧
    (playWav load200 true wavInit "snd.wav" 100 0).2.wavLen = 200 ∧
    (playWav load200 true wavInit "snd.wav" 100 0).2.wavLen ≠ 200 - 100 := by
  decide

set_option maxRecDepth 8192 in
/-- C3: the claimed invariant — overlay playback cursor plus remaining
length never exceeds the loaded buffer's bounds — is violated by the very
first overlay operation `play(buf, 100, 0)` on a 200-byte buffer: the code
leaves cursor offset 100 with remaining length 200, and 100 + 200 > 200. -/
theorem wavInvariant_violated_after_play :
    ¬ wavInvariant (playWav load200 true wavInit "snd.wav" 100 0).2 := by
  unfold wavInvariant
  decide

set_option maxRecDepth 8192 in
/-- C2 counterexample: a `play` call that fails to load a new file (load
oracle yields `none` for `"b.wav"`) returns failure but does NOT leave the
overlay state unchanged — the previously resident buffer has already been
freed (`myWavBuffer` is null afterwards). -/
theorem playWav_loadFailure_mutates :
    (playWav (fun _ => none) true wavResident "b.wav" 0 0).1 = false ∧
    (playWav (fun _ => none) true wavResident "b.wav" 0 0).2.wavBuffer ≠
      wavResident.wavBuffer := by
  decide

/-- C2 (amended): a `play` call that fails because the start offset
exceeds the length of the already-resident buffer (same file name) leaves
the overlay state exactly unchanged; a `play` call that fails to load a
missing/corrupt file (a load is attempted whenever the name differs or no
buffer is resident) returns with the previously resident buffer already
freed — the buffer is null and every other field keeps its prior value —
so it is a true no-op exactly when no buffer was resident before the
call. -/
theorem playWav_failure_effects (loadWav : String → Option (List ℕ))
    (openDev : Bool) (s : WavState) (fileName : String) (p L : ℕ) :
    (fileName = s.wavFilename → s.wavBuffer ≠ none → p > s.wavLength →
      playWav loadWav openDev s fileName p L = (false, s)) ∧
    (fileName ≠ s.wavFilename ∨ s.wavBuffer = none → loadWav fileName = none →
      playWav loadWav openDev s fileName p L =
        (false, { s with wavBuffer := none })) ∧
    (s.wavBuffer = none → loadWav fileName = none →
      playWav loadWav openDev s fileName p L = (false, s)) := by
  refine ⟨?_, ?_, ?_⟩
  · intro hname hbuf hpos
    subst hname
    unfold playWav
    simp [hbuf, hpos]
  · intro hcond hload
    unfold playWav
    rw [if_pos hcond, hload]
  · intro hbuf hload
    have hs : ({ s with wavBuffer := none } : WavState) = s := by
      cases s
      simp_all
    unfold playWav
    rw [if_pos (Or.inr hbuf), hload, hs]

set_option maxRecDepth 8192 in
/-- C2 witness: `play(buf, 250, 0)` on the resident 200-byte buffer fails
and leaves the state unchanged; a failed load of `"b.wav"` over the
resident buffer fails with that buffer freed; and a failed load with no
buffer resident leaves the empty state exactly unchanged. -/
theorem playWav_failure_effects_witness :
    playWav load200 true wavResident "a.wav" 250 0 = (false, wavResident) ∧
    playWav (fun _ => none) true wavResident "b.wav" 0 0 =
      (false, { wavResident with wavBuffer := none }) ∧
    playWav (fun _ => none) true wavInit "b.wav" 0 0 = (false, wavInit) :=
  ⟨(playWav_failure_effects load200 true wavResident "a.wav" 250 0).1
      rfl (by decide) (by decide),
   (playWav_failure_effects (fun _ => none) true wavResident "b.wav" 0 0).2.1
      (Or.inl (by decide)) rfl,
   (playWav_failure_effects (fun _ => none) true wavInit "b.wav" 0 0).2.2
      rfl rfl⟩

/-- C4 counterexample: on an engine that is not initialized
(`myIsInitializedFlag` false), an in-range call `setVolume(50)` stores
nothing — the normalized volume factor stays at its old value 30/100
instead of becoming 50/100, contradicting the unconditional "if percent is
within 0–100 the volume is stored" reading of the claim. -/
theorem setVolume_uninitialized_counterexample :
    (setVolume soundUninit 50).volumeFactor ≠ (50 : ℚ) / 100 := by
  norm_num [setVolume, soundUninit]

/-- C4 (amended): out-of-range calls (`percent > 100`) are always rejected
with no state change at all (stored volume, normalized factor, overlay
factor and persisted settings untouched); on an uninitialized engine an
in-range call likewise changes nothing; and on an initialized engine
in-range calls store the volume as the normalized factor `percent / 100`
(persisted, with the overlay factor tracking the enabled flag). -/
theorem setVolume_behavior (s : SoundState) (p : ℕ) :
    (100 < p → setVolume s p = s) ∧
    (s.isInitialized = false → setVolume s p = s) ∧
    (s.isInitialized = true → p ≤ 100 →
      (setVolume s p).volume = p ∧
      (setVolume s p).settingsVolume = p ∧
      (setVolume s p).volumeFactor = (p : ℚ) / 100 ∧
      (setVolume s p).wavVolumeFactor =
        (if s.settingsEnabled then (p : ℚ) / 100 else 0)) := by
  refine ⟨?_, ?_, ?_⟩
  · intro hp
    unfold setVolume
    have hno : ¬ (s.isInitialized = true ∧ p ≤ 100) := by omega
    simp [hno]
  · intro hinit
    unfold setVolume
    simp [hinit]
  · intro hinit hp
    unfold setVolume
    simp [hinit, hp]

/-- C4 witness: `setVolume(101)` on an initialized engine is a no-op,
`setVolume(50)` on an uninitialized engine is a no-op on the whole state,
and `setVolume(60)` on an initialized engine stores 60 and the factor
60/100. -/
theorem setVolume_behavior_witness :
    setVolume soundReady 101 = soundReady ∧
    setVolume soundUninit 50 = soundUninit ∧
    ((setVolume soundReady 60).volume = 60 ∧
      (setVolume soundReady 60).settingsVolume = 60 ∧
      (setVolume soundReady 60).volumeFactor = (60 : ℚ) / 100 ∧
      (setVolume soundReady 60).wavVolumeFactor =
        (if soundReady.settingsEnabled then (60 : ℚ) / 100 else 0)) :=
  ⟨(setVolume_behavior soundReady 101).1 (by decide),
   (setVolume_behavior soundUninit 50).2.1 rfl,
   (setVolume_behavior soundReady 60).2.2 rfl (by decide)⟩

/-- C5: for every pull issued to the resampler's next-fragment callback:
while the underrun flag is set, a fragment is dequeued only if the queue
holds at least the configured prebuffer fragment count (otherwise the pull
yields `none` and the queue state is untouched); while the flag is clear
the pull always performs the dequeue; and afterwards the underrun flag
equals whether this pull failed to yield a fragment. -/
theorem nextFragmentCallback_spec {Q F : Type}
    (dequeue : Q → Option F → Option F × Q) (qsize : Q → ℕ)
    (pre : ℕ) (s : PullState Q F) :
    (s.underrun = true → qsize s.queue < pre →
      (nextFragmentCallback dequeue qsize pre s).1 = none ∧
      (nextFragmentCallback dequeue qsize pre s).2.queue = s.queue) ∧
    (s.underrun = true → pre ≤ qsize s.queue →
      ((nextFragmentCallback dequeue qsize pre s).1,
        (nextFragmentCallback dequeue qsize pre s).2.queue) =
        dequeue s.queue s.currentFragment) ∧
    (s.underrun = false →
      ((nextFragmentCallback dequeue qsize pre s).1,
        (nextFragmentCallback dequeue qsize pre s).2.queue) =
        dequeue s.queue s.currentFragment) ∧
    (nextFragmentCallback dequeue qsize pre s).2.underrun =
      ((nextFragmentCallback dequeue qsize pre s).1).isNone := by
  refine ⟨?_, ?_, ?_, ?_⟩
  · intro hu hq
    unfold nextFragmentCallback
    simp [hu, Nat.not_le_of_lt hq]
  · intro hu hq
    unfold nextFragmentCallback
    simp [hu, hq]
  · intro hu
    unfold nextFragmentCallback
    simp [hu]
  · unfold nextFragmentCallback
    simp

/-- C5 witness: in underrun with 2 fragments queued and prebuffer count 3
the pull yields nothing and the queue is untouched; with prebuffer count 1
it dequeues; out of underrun it always dequeues. -/
theorem nextFragmentCallback_spec_witness :
    ((nextFragmentCallback dequeueList List.length 3 pullUnderrun).1 = none ∧
      (nextFragmentCallback dequeueList List.length 3 pullUnderrun).2.queue =
        pullUnderrun.queue) ∧
    ((nextFragmentCallback dequeueList List.length 1 pullUnderrun).1,
      (nextFragmentCallback dequeueList List.length 1 pullUnderrun).2.queue) =
      dequeueList pullUnderrun.queue pullUnderrun.currentFragment ∧
    ((nextFragmentCallback dequeueList List.length 3 pullRunning).1,
      (nextFragmentCallback dequeueList List.length 3 pullRunning).2.queue) =
      dequeueList pullRunning.queue pullRunning.currentFragment :=
  ⟨(nextFragmentCallback_spec dequeueList List.length 3 pullUnderrun).1
      rfl (by decide),
   (nextFragmentCallback_spec dequeueList List.length 1 pullUnderrun).2.1
      rfl (by decide),
   (nextFragmentCallback_spec dequeueList List.length 3 pullRunning).2.2.1
      rfl⟩

/-- C6: when no fragment queue is bound the device callback zero-fills
the whole `len`-byte buffer; when a queue is bound, the resampler's fill
is asked for exactly `len / 4` samples (`len >> 2` in the code) and every
produced sample is then multiplied exactly once by the current volume
factor — for any fill function, i.e. the volume is applied after
resampling, never inside the resampler. -/
theorem callback_spec (fill : ℕ → List ℚ) (vol : ℚ) (len : ℕ) :
    callback false fill vol len = CallbackOutput.zeroFill len ∧
    callback true fill vol len =
      CallbackOutput.samples
        ((fill (len / 4)).map (fun sample => sample * vol)) := by
  refine ⟨rfl, ?_⟩
  unfold callback processFragment
  have h4 : len >>> 2 = len / 4 := by
    rw [Nat.shiftRight_eq_div_pow]
  rw [h4]
  simp

/-- C7: the device is closed and re-opened exactly when the requested
sample rate differs from the negotiated hardware rate, or the requested
fragment size differs from the negotiated one, or the configured device
identifier differs from the bound one; when all three agree, the device
state (handle and negotiated format) is left unchanged. -/
theorem open_reopen_iff (settings : AudioSettingsS) (numDevices : ℕ)
    (openResult : Option (ℕ × ℕ × ℕ)) (s : DeviceState) :
    (settings.sampleRate = s.hardwareFreq ∧
        settings.fragmentSize = s.hardwareSamples ∧
        settings.device = s.deviceId →
      openDevicePhase settings numDevices openResult s = s) ∧
    (settings.sampleRate ≠ s.hardwareFreq ∨
        settings.fragmentSize ≠ s.hardwareSamples ∨
        settings.device ≠ s.deviceId →
      openDevicePhase settings numDevices openResult s =
        openDevice settings numDevices openResult s) := by
  constructor
  · intro h
    unfold openDevicePhase
    simp [h.1, h.2.1, h.2.2]
  · intro h
    unfold openDevicePhase
    rw [if_pos h]

/-- C7 witness: with matching settings the phase is the identity; with a
changed sample rate it performs the reopen. -/
theorem open_reopen_iff_witness :
    openDevicePhase settingsMatching 1 (some (4, 48000, 512)) devMatching =
      devMatching ∧
    openDevicePhase settingsChanged 1 (some (4, 48000, 512)) devMatching =
      openDevice settingsChanged 1 (some (4, 48000, 512)) devMatching :=
  ⟨(open_reopen_iff settingsMatching 1 (some (4, 48000, 512)) devMatching).1
      ⟨rfl, rfl, rfl⟩,
   (open_reopen_iff settingsChanged 1 (some (4, 48000, 512)) devMatching).2
      (Or.inl (by decide))⟩

/-- C8: `mute(state)` returns the pause status of the primary stream read
before the change (the previous mute/paused state), and `toggleMute`
returns the new enabled state — the returned boolean is true exactly when
audio is enabled in the post state. -/
theorem mute_toggleMute_returns (s : MuteState) (state : Bool) :
    (mute s state).1 = s.devicePaused ∧
    (toggleMute s).1 = !s.settingsEnabled ∧
    (toggleMute s).1 = (toggleMute s).2.settingsEnabled := by
  refine ⟨rfl, rfl, ?_⟩
  unfold toggleMute mute setEnabled
  simp only []
  split <;> split <;> split <;> rfl

/-- C9: volume scaling is a linear per-sample multiplication: at volume
setting `p` (stored by `setVolume` on an initialized engine) the emitted
sample at every position equals the resampler's sample times `p / 100`;
doubling the output at volume 50 gives the output at volume 100
sample-for-sample, and volume 0 produces all-zero output for any input. -/
theorem processFragment_volume_linear (s : SoundState) (fill : ℕ → List ℚ)
    (n p i : ℕ) (hinit : s.isInitialized = true) (hp : p ≤ 100) :
    (processFragment fill ((setVolume s p).volumeFactor) n)[i]? =
      ((fill n)[i]?).map (fun sample => sample * ((p : ℚ) / 100)) ∧
    (processFragment fill ((50 : ℚ) / 100) n).map (fun sample => sample * 2) =
      processFragment fill ((100 : ℚ) / 100) n ∧
    processFragment fill 0 n = (fill n).map (fun _ => 0) := by
  refine ⟨?_, ?_, ?_⟩
  · have hvf : (setVolume s p).volumeFactor = (p : ℚ) / 100 := by
      unfold setVolume
      simp [hinit, hp]
    rw [hvf]
    unfold processFragment
    rw [List.getElem?_map]
  · unfold processFragment
    rw [List.map_map]
    have hfun : ((fun sample : ℚ => sample * 2) ∘
        fun sample : ℚ => sample * (50 / 100)) =
        (fun sample : ℚ => sample * (100 / 100)) := by
      funext x
      simp [Function.comp]
      ring
    rw [hfun]
  · unfold processFragment
    have hfun : (fun sample : ℚ => sample * 0) = (fun _ : ℚ => (0 : ℚ)) := by
      funext x
      ring
    rw [hfun]

/-- C9 witness: the three linearity facts evaluated at volume 60, a
3-sample all-ones fill and sample position 0. -/
theorem processFragment_volume_linear_witness :
    (processFragment fillOnes ((setVolume soundReady 60).volumeFactor) 3)[0]? =
      ((fillOnes 3)[0]?).map (fun sample => sample * ((60 : ℚ) / 100)) ∧
    (processFragment fillOnes ((50 : ℚ) / 100) 3).map
        (fun sample => sample * 2) =
      processFragment fillOnes ((100 : ℚ) / 100) 3 ∧
    processFragment fillOnes 0 3 = (fillOnes 3).map (fun _ => 0) :=
  processFragment_volume_linear soundReady fillOnes 3 60 0 rfl (by decide)

/-- C10: the overlay length query returns 0 whenever no overlay buffer is
resident; when one is resident it returns the remaining un-played length
(`myWavLen`, the field each callback decrements), and after a callback
that consumes `min len remaining` bytes the value it returns has decreased
by exactly that count. -/
theorem wavSize_remaining (s : WavState) (len : ℕ) :
    (s.wavBuffer = none → wavSize s = 0) ∧
    (s.wavBuffer ≠ none → wavSize s = s.wavLen) ∧
    (s.wavBuffer ≠ none →
      wavSize (wavCallback s len) = wavSize s - min len s.wavLen) := by
  have hS : s.wavBuffer ≠ none → s.wavBuffer.isSome = true := by
    intro h
    exact Option.isSome_iff_ne_none.mpr h
  refine ⟨?_, ?_, ?_⟩
  · intro h
    simp [wavSize, h]
  · intro h
    simp [wavSize, hS h]
  · intro h
    unfold wavSize wavCallback
    by_cases h0 : s.wavLen = 0
    · simp [h0, hS h]
    · by_cases hl : len > s.wavLen
      · simp [h0, hl, hS h]
        omega
      · simp [h0, hl, hS h]
        omega

set_option maxRecDepth 8192 in
/-- C10 witness: the length query on the empty state is 0, and on the
resident 200-byte buffer a 64-byte callback cycle drops it from 200 to
200 - 64. -/
theorem wavSize_remaining_witness :
    wavSize wavInit = 0 ∧
    wavSize wavResident = wavResident.wavLen ∧
    wavSize (wavCallback wavResident 64) =
      wavSize wavResident - min 64 wavResident.wavLen :=
  ⟨(wavSize_remaining wavInit 64).1 rfl,
   (wavSize_remaining wavResident 64).2.1 (by decide),
   (wavSize_remaining wavResident 64).2.2 (by decide)⟩

end SoundSDL2
